import Mathlib

/-!
# Verification of the frc-radio-api access-point reconciliation controller

This file gives a shallow embedding of the access-point radio code of the
repository and proves (or refutes) the frozen claims about it.

The repository contains two structurally different revisions of the same
access-point file `radio_ap.go`:

* variant 1 (`src/radio/radio_ap.go`) — the richer variant, with channel
  bandwidth, alliance VLAN groups and a syslog address; its
  `configureStations` stages only the stations named in the request and
  bounds the retry loop by `maxRetryCount`;
* variant 2 (`src/unnamed/part_000`) — the variant whose `configureStations`
  stages all six stations (with `no-team-` placeholders for unnamed ones),
  commits once per station inside the staging loop, and retries without a
  ceiling; it also holds the bodies of `handleConfigurationRequest` and
  `getHashedWpaKeyAndSalt`.

Definitions carrying the suffix `1` embed variant 1, suffix `2` embeds
variant 2; unsuffixed definitions are shared by both variants verbatim.

Side effects on the UCI configuration store and on the shell are modelled by
explicit `Effect` traces; results of external commands (`iwinfo`,
`wifi reload`, store commits) are supplied by oracle parameters, since they
are produced by the device, not by this code.
-/

/-- The six team stations, `stringer`-ordered as in the Go `station` enum
(`station_string.go`): red1 = 0 … blue3 = 5. -/
inductive station
  | red1
  | red2
  | red3
  | blue1
  | blue2
  | blue3
deriving DecidableEq

/-- The integer value of a station in the Go enum (`int(station)`). -/
def station.idx : station → Nat
  | .red1 => 0
  | .red2 => 1
  | .red3 => 2
  | .blue1 => 3
  | .blue2 => 4
  | .blue3 => 5

/-- `station.String()` from the generated `station_string.go` (for in-range
values; out-of-range values cannot arise for the inductive type). -/
def station.str : station → String
  | .red1 => "red1"
  | .red2 => "red2"
  | .red3 => "red3"
  | .blue1 => "blue1"
  | .blue2 => "blue2"
  | .blue3 => "blue3"

/-- All six stations in ascending enum order, as iterated by
`for station := red1; station <= blue3; station++`. -/
def allStations : List station :=
  [station.red1, station.red2, station.red3, station.blue1, station.blue2, station.blue3]

/-- Hardware type of the radio (`RadioType`/`radioType` in the source). -/
inductive RadioType
  | typeUnknown
  | typeLinksys
  | typeVividHosting
deriving DecidableEq

/-- The Wi-Fi device name chosen in `NewRadio` for each hardware type
("radio0" for Linksys, "wifi1" for Vivid-Hosting; `NewRadio` aborts the
process on an unknown type, so that case never reaches the code modelled
here). -/
def device : RadioType → String
  | RadioType.typeLinksys => "radio0"
  | RadioType.typeVividHosting => "wifi1"
  | RadioType.typeUnknown => ""

/-- Per-station observed status (`NetworkStatus`/`StationStatus` in the
source).  Only the fields the verified claims touch are carried; the
telemetry fields (bandwidth, rates, SNR) are never read by the code under
verification here and are omitted. -/
structure NetworkStatus where
  Ssid : String
  HashedWpaKey : String
  WpaKeySalt : String
deriving DecidableEq

/-- A per-station desired configuration (`StationConfiguration`). -/
structure StationConfiguration where
  Ssid : String
  WpaKey : String
deriving DecidableEq

/-- One observable side effect on the configuration store or the shell:
a staged `uciTree.SetType` write, a `uciTree.Commit`, an external command
invocation, or a sleep. -/
inductive Effect
  | set (config : String) (sec : String) (opt : String) (val : String)
  | commit
  | run (cmd : List String)
  | sleep
deriving DecidableEq

/-- Lookup in a Go `map[string]V` modelled as an association list
(first match wins; Go maps have no duplicate keys). -/
def lookupCfg {α : Type} (cfgs : List (String × α)) (name : String) : Option α :=
  (cfgs.find? fun p => p.1 == name).map Prod.snd

/-- `radioStatus` is a string enum in variant 2; these are its constants. -/
def statusBooting : String := "BOOTING"

/-- `statusConfiguring` constant of the `radioStatus` string enum. -/
def statusConfiguring : String := "CONFIGURING"

/-- `statusActive` constant of the `radioStatus` string enum. -/
def statusActive : String := "ACTIVE"

/-- `statusError` constant of the `radioStatus` string enum. -/
def statusError : String := "ERROR"

/-- Maximum number of configuration attempts (`maxRetryCount`, variant 1
only; variant 2 has no such constant). -/
def maxRetryCount : Nat := 3

/-!
## Variant 1: `src/radio/radio_ap.go`
-/

/-- The `switch vlans` at the end of `getStationVlan` (variant 1,
lines 127-137). -/
def vlanFromGroup (vlans : String) (position : Int) : Int :=
  if vlans = "10_20_30" then 10 * position
  else if vlans = "40_50_60" then 10 * (position + 3)
  else if vlans = "70_80_90" then 10 * (position + 6)
  else -1

/-- The `vlans` variable of `getStationVlan` (variant 1, lines 117-125):
the red group for a red station, the blue group for a blue one; the Go
zero value `""` is unreachable for the six-valued enum. -/
def stationVlans (redVlans blueVlans : String) (s : station) : String :=
  if s = station.red1 ∨ s = station.red2 ∨ s = station.red3 then redVlans
  else if s = station.blue1 ∨ s = station.blue2 ∨ s = station.blue3 then blueVlans
  else ""

/-- The `position` variable of `getStationVlan` (variant 1, lines 117-125):
`int(station) - int(red1) + 1` for red, `int(station) - int(blue1) + 1` for
blue; the Go zero value `0` is unreachable for the six-valued enum. -/
def stationPosition (s : station) : Int :=
  if s = station.red1 ∨ s = station.red2 ∨ s = station.red3 then (s.idx : Int) + 1
  else if s = station.blue1 ∨ s = station.blue2 ∨ s = station.blue3 then (s.idx : Int) - 3 + 1
  else 0

/-- `getStationVlan` (variant 1, lines 116-138): VLAN number for a station,
computed from the alliance's VLAN group and the station's position within
its alliance; `-1` on an unrecognized group. -/
def getStationVlan (redVlans blueVlans : String) (s : station) : Int :=
  vlanFromGroup (stationVlans redVlans blueVlans s) (stationPosition s)

/-- Spec-side definition (from the spec's words, for comparison with
`getStationVlan`): the offset selected by an alliance VLAN group —
0, 3 or 6 for the three valid groups, undefined otherwise. -/
def specVlanOffset (g : String) : Option Int :=
  if g = "10_20_30" then some 0
  else if g = "40_50_60" then some 3
  else if g = "70_80_90" then some 6
  else none

/-- Spec-side definition: the 1-3 position of a station within its
alliance. -/
def specPosition : station → Int
  | .red1 => 1
  | .red2 => 2
  | .red3 => 3
  | .blue1 => 1
  | .blue2 => 2
  | .blue3 => 3

/-- Spec-side definition: the VLAN group of the station's alliance. -/
def specAllianceGroup (redVlans blueVlans : String) : station → String
  | .red1 => redVlans
  | .red2 => redVlans
  | .red3 => redVlans
  | .blue1 => blueVlans
  | .blue2 => blueVlans
  | .blue3 => blueVlans

/-- C7: for every station, `getStationVlan` returns `10 * (position + offset)`
with position 1-3 inside the alliance and offset 0/3/6 selected by the
alliance's VLAN group ("10_20_30", "40_50_60", "70_80_90" respectively), and
returns the sentinel `-1` for any other group value. -/
theorem c7_vlan (redVlans blueVlans : String) (s : station) :
    getStationVlan redVlans blueVlans s =
      match specVlanOffset (specAllianceGroup redVlans blueVlans s) with
      | some off => 10 * (specPosition s + off)
      | none => -1 := by
  cases s <;>
    simp only [getStationVlan, stationVlans, stationPosition, vlanFromGroup, specVlanOffset,
      specAllianceGroup, specPosition, station.idx] <;>
    norm_num <;>
    split_ifs <;>
    simp_all

/-- The desired configuration consumed by variant 1's `configure`
(modelled from its uses there: the type declaration itself is in a file of
the repository that is not under `src/`).  A `none` value in
`StationConfigurations` is Go's explicit nil "unassign" marker. -/
structure ConfigurationRequest1 where
  Channel : Int
  ChannelBandwidth : String
  RedVlans : String
  BlueVlans : String
  SyslogIpAddress : String
  StationConfigurations : List (String × Option StationConfiguration)

/-- The in-memory `Radio` fields that variant 1's `configure` reads or
writes. -/
structure RadioState1 where
  Channel : Int
  ChannelBandwidth : String
  RedVlans : String
  BlueVlans : String
  SyslogIpAddress : String
deriving DecidableEq

/-- The station-name to station-enum lookup inside variant 1's
`configureStations` (lines 230-237): the first station whose `String()`
equals the name; the Go zero value `red1` if none matches. -/
def lookupStationByName (name : String) : station :=
  (allStations.find? fun s => s.str == name).getD station.red1

/-- The staged `uciTree.SetType` writes of one iteration of variant 1's
staging loop (lines 224-250): nothing for a nil config; ssid, key,
`sae_password` on Vivid-Hosting, and the VLAN network binding otherwise. -/
def stageStation1 (ty : RadioType) (redVlans blueVlans : String)
    (name : String) (cfg : Option StationConfiguration) : List Effect :=
  match cfg with
  | none => []
  | some c =>
    let s := lookupStationByName name
    let wifiInterface := "@wifi-iface[" ++ toString (s.idx + 1) ++ "]"
    [Effect.set "wireless" wifiInterface "ssid" c.Ssid,
     Effect.set "wireless" wifiInterface "key" c.WpaKey]
    ++ (if ty = RadioType.typeVividHosting then
          [Effect.set "wireless" wifiInterface "sae_password" c.WpaKey]
        else [])
    ++ [Effect.set "wireless" wifiInterface "network"
          ("vlan" ++ toString (getStationVlan redVlans blueVlans s))]

/-- All writes staged by one pass of variant 1's staging loop
(lines 223-250): only the stations present in the request are visited. -/
def stagePass1 (ty : RadioType) (redVlans blueVlans : String)
    (cfgs : List (String × Option StationConfiguration)) : List Effect :=
  cfgs.flatMap fun p => stageStation1 ty redVlans blueVlans p.1 p.2

/-- The full effect trace of one attempt of variant 1's `configureStations`
(lines 222-260): staging, then the single commit, then the reload command
and the backoff sleep. -/
def attemptTrace1 (ty : RadioType) (redVlans blueVlans : String)
    (cfgs : List (String × Option StationConfiguration)) : List Effect :=
  stagePass1 ty redVlans blueVlans cfgs
    ++ [Effect.commit, Effect.run ["wifi", "reload", device ty], Effect.sleep]

/-- `stationSsidsAreCorrect` (variant 1, lines 302-317): every station named
in the request must carry a non-nil status with the requested SSID; every
other station must carry a nil status.  The case of a nil config entry paired
with a non-nil status dereferences a nil pointer in Go; it is modelled here
as a mismatch and excluded by hypothesis where it matters. -/
def stationSsidsAreCorrect (cfgs : List (String × Option StationConfiguration))
    (sts : station → Option NetworkStatus) : Bool :=
  allStations.all fun s =>
    match lookupCfg cfgs s.str with
    | some cfgOpt =>
      match sts s, cfgOpt with
      | none, _ => false
      | some st, some c => st.Ssid == c.Ssid
      | some _, none => false
    | none => (sts s).isNone

/-- The device-side outcome of one attempt of the reconciliation loop,
supplied as an oracle: whether the store commit and the `wifi reload`
command succeed, and what `updateStationStatuses` observes. -/
structure AttemptEnv where
  commitOk : Bool
  reloadOk : Bool
  observed : Except String (station → Option NetworkStatus)

/-- The early-exit outcome of one attempt of variant 1's loop body
(lines 252-269): `some r` means the attempt returns `r` (a fatal error or
convergence), `none` means the SSIDs did not match and the loop decides
whether to retry. -/
def attemptOutcome (ty : RadioType) (cfgs : List (String × Option StationConfiguration))
    (e : AttemptEnv) : Option (Except String Unit) :=
  if e.commitOk = false then
    some (Except.error "failed to commit wireless configuration")
  else if e.reloadOk = false then
    some (Except.error ("failed to reload configuration for device " ++ device ty))
  else
    match e.observed with
    | Except.error m => some (Except.error ("error updating station statuses: " ++ m))
    | Except.ok sts =>
      if stationSsidsAreCorrect cfgs sts then some (Except.ok ()) else none

/-- The retry loop of variant 1's `configureStations` (lines 220-277),
with the current `retryCount` and a fuel argument; the loop is bounded by
`maxRetryCount`, so fuel `maxRetryCount` is never exhausted when entered
with `retryCount = 1`.  Returns the result together with the number of
attempts performed. -/
def csRunV1 (ty : RadioType) (cfgs : List (String × Option StationConfiguration))
    (env : Nat → AttemptEnv) : Nat → Nat → Except String Unit × Nat
  | r, 0 => (Except.error "retry loop left without fuel", r)
  | r, fuel + 1 =>
    match attemptOutcome ty cfgs (env r) with
    | some res => (res, r)
    | none =>
      if maxRetryCount ≤ r then
        (Except.error ("failed to configure stations after " ++ toString r ++ " attempts"), r)
      else
        csRunV1 ty cfgs env (r + 1) fuel

/-- `configureStations` of variant 1 (lines 219-277), as the bounded retry
loop entered with `retryCount = 1`. -/
def configureStations1 (ty : RadioType) (cfgs : List (String × Option StationConfiguration))
    (env : Nat → AttemptEnv) : Except String Unit × Nat :=
  csRunV1 ty cfgs env 1 maxRetryCount

/-!
## Variant 2: `src/unnamed/part_000`
-/

/-- The desired configuration consumed by variant 2's `configure` (modelled
from its uses; the type declaration is in a file of the repository not under
`src/`).  Station configurations are by value here — no nil markers. -/
structure ConfigurationRequest2 where
  Channel : Int
  StationConfigurations : List (String × StationConfiguration)
deriving DecidableEq

/-- One iteration of variant 2's staging loop (lines 190-211): ssid and key
from the request when the station is named, the `no-team-` placeholder (used
for both ssid and key) otherwise; `sae_password` on Vivid-Hosting; and the
per-station `uciTree.Commit` that ends every iteration. -/
def stageStation2 (ty : RadioType) (cfgs : List (String × StationConfiguration))
    (s : station) : List Effect :=
  let position := s.idx + 1
  let sk : String × String :=
    match lookupCfg cfgs s.str with
    | some c => (c.Ssid, c.WpaKey)
    | none => ("no-team-" ++ toString position, "no-team-" ++ toString position)
  let wifiInterface := "@wifi-iface[" ++ toString position ++ "]"
  [Effect.set "wireless" wifiInterface "ssid" sk.1,
   Effect.set "wireless" wifiInterface "key" sk.2]
  ++ (if ty = RadioType.typeVividHosting then
        [Effect.set "wireless" wifiInterface "sae_password" sk.2]
      else [])
  ++ [Effect.commit]

/-- All effects of one staging pass of variant 2's `configureStations`
(lines 190-211): all six stations are visited, in enum order. -/
def attemptStage2 (ty : RadioType) (cfgs : List (String × StationConfiguration)) : List Effect :=
  allStations.flatMap (stageStation2 ty cfgs)

/-- `stationSsidsAreCorrect` (variant 2, lines 270-285): same convergence
check with by-value configurations. -/
def stationSsidsAreCorrect2 (cfgs : List (String × StationConfiguration))
    (sts : station → Option NetworkStatus) : Bool :=
  allStations.all fun s =>
    match lookupCfg cfgs s.str with
    | some c =>
      match sts s with
      | none => false
      | some st => st.Ssid == c.Ssid
    | none => (sts s).isNone

/-- The early-exit outcome of one attempt of variant 2's loop body
(lines 190-228), analogous to `attemptOutcome`. -/
def attemptOutcome2 (ty : RadioType) (cfgs : List (String × StationConfiguration))
    (e : AttemptEnv) : Option (Except String Unit) :=
  if e.commitOk = false then
    some (Except.error "failed to commit wireless configuration")
  else if e.reloadOk = false then
    some (Except.error ("failed to reload configuration for device " ++ device ty))
  else
    match e.observed with
    | Except.error m => some (Except.error ("error updating station statuses: " ++ m))
    | Except.ok sts =>
      if stationSsidsAreCorrect2 cfgs sts then some (Except.ok ()) else none

/-- The retry loop of variant 2's `configureStations` (lines 186-236).  The
Go loop has no retry ceiling: it only leaves on convergence or on a fatal
command/commit error.  One unit of fuel corresponds to one attempt;
`none` means the loop is still running after the given number of
attempts. -/
def csRunV2 (ty : RadioType) (cfgs : List (String × StationConfiguration))
    (env : Nat → AttemptEnv) : Nat → Nat → Option (Except String Unit × Nat)
  | _, 0 => none
  | r, fuel + 1 =>
    match attemptOutcome2 ty cfgs (env r) with
    | some res => some (res, r)
    | none => csRunV2 ty cfgs env (r + 1) fuel

/-!
## Variant 1: `updateStationStatuses` and `configure`
-/

/-- The fresh entry stored for a station by variant 1's
`updateStationStatuses` (lines 287-294): nil for a `no-team-` placeholder
SSID, otherwise a status carrying the observed SSID and a hashed key and
salt.  The hashing is supplied as an oracle, since its body lives in the
variant-2 file and is verified separately there. -/
def newEntry (hash : station → String × String) (s : station) (ssid : String) :
    Option NetworkStatus :=
  if ssid.startsWith "no-team-" then none
  else some { Ssid := ssid, HashedWpaKey := (hash s).1, WpaKeySalt := (hash s).2 }

/-- Replacement of one station's entry in the `StationStatuses` map. -/
def updateMap (m : station → Option NetworkStatus) (s : station)
    (v : Option NetworkStatus) : station → Option NetworkStatus :=
  fun t => if t = s then v else m t

/-- The station loop of variant 1's `updateStationStatuses` (lines 282-295):
for each station in order, read the SSID via `getSsid` (an oracle for the
`iwinfo` introspection); on error return immediately, leaving the map in
whatever state it has reached; otherwise replace that station's entry and
continue. -/
def ussRun (getSsid : station → Except String String) (hash : station → String × String) :
    List station → (station → Option NetworkStatus) →
      (station → Option NetworkStatus) × Option String
  | [], m => (m, none)
  | s :: rest, m =>
    match getSsid s with
    | Except.error e => (m, some e)
    | Except.ok ssid => ussRun getSsid hash rest (updateMap m s (newEntry hash s ssid))

/-- `updateStationStatuses` (variant 1, lines 281-298), over the six
stations in enum order, starting from the pre-call map. -/
def updateStationStatuses1 (getSsid : station → Except String String)
    (hash : station → String × String) (init : station → Option NetworkStatus) :
    (station → Option NetworkStatus) × Option String :=
  ussRun getSsid hash allStations init

/-- The tail of variant 1's `configure` (lines 208-216): the mandatory
Linksys clear pass through `configureStations` with an empty map (plus its
settle sleep), then the real `configureStations` call.  The station phase's
own effects are summarized by the `stations` result oracle. -/
def configureTail (ty : RadioType) (st : RadioState1) (tr : List Effect)
    (req : ConfigurationRequest1)
    (stations : List (String × Option StationConfiguration) → Except String Unit) :
    RadioState1 × List Effect × Except String Unit :=
  if ty = RadioType.typeLinksys then
    match stations [] with
    | Except.error e => (st, tr, Except.error e)
    | Except.ok _ => (st, tr ++ [Effect.sleep], stations req.StationConfigurations)
  else
    (st, tr, stations req.StationConfigurations)

/-- `configure` (variant 1, lines 175-216): channel staging, channel
bandwidth validation and staging, VLAN group update, the immediately
committed syslog change with its service restart, then the station phase.
`sysCommitOk` and `logRestartOk` are the oracles for the store commit of the
system section and the `/etc/init.d/log restart` command. -/
def configure1 (ty : RadioType) (st : RadioState1) (req : ConfigurationRequest1)
    (sysCommitOk logRestartOk : Bool)
    (stations : List (String × Option StationConfiguration) → Except String Unit) :
    RadioState1 × List Effect × Except String Unit :=
  let st1 := if 0 < req.Channel then { st with Channel := req.Channel } else st
  let tr1 := if 0 < req.Channel then
      [Effect.set "wireless" (device ty) "channel" (toString req.Channel)]
    else []
  if req.ChannelBandwidth ≠ "" ∧ req.ChannelBandwidth ≠ "20MHz" ∧ req.ChannelBandwidth ≠ "40MHz" then
    (st1, tr1, Except.error ("invalid channel bandwidth: " ++ req.ChannelBandwidth))
  else
    let st2 := if req.ChannelBandwidth ≠ "" then
        { st1 with ChannelBandwidth := req.ChannelBandwidth }
      else st1
    let tr2 := tr1 ++
      (if req.ChannelBandwidth = "20MHz" then
        [Effect.set "wireless" (device ty) "htmode" "HT20"]
      else if req.ChannelBandwidth = "40MHz" then
        [Effect.set "wireless" (device ty) "htmode" "HT40"]
      else [])
    let st3 := if req.RedVlans ≠ "" ∧ req.BlueVlans ≠ "" then
        { st2 with RedVlans := req.RedVlans, BlueVlans := req.BlueVlans }
      else st2
    if req.SyslogIpAddress ≠ "" then
      let tr3 := tr2 ++ [Effect.set "system" "@system[0]" "log_ip" req.SyslogIpAddress,
        Effect.commit]
      if sysCommitOk = false then
        (st3, tr3, Except.error "failed to commit system configuration")
      else
        let st4 := { st3 with SyslogIpAddress := req.SyslogIpAddress }
        let tr4 := tr3 ++ [Effect.run ["/etc/init.d/log", "restart"]]
        if logRestartOk = false then
          (st4, tr4, Except.error "failed to restart syslog service")
        else
          configureTail ty st4 tr4 req stations
    else
      configureTail ty st3 tr2 req stations

/-!
## Variant 2: credential hashing and request handling
-/

/-- `saltCharacters` (variant 2, line 22). -/
def saltCharacters : String :=
  "abcdefghijklmnopqrstuvwxyzABCDEFGHIJKLMNOPQRSTUVWXYZ0123456789"

/-- `saltLength` (variant 2, line 23). -/
def saltLength : Nat := 16

/-- One character of the salt: `saltCharacters[rand.Intn(len(saltCharacters))]`
(variant 2, line 297).  `rand.Intn` guarantees an index below the length;
the reduction modulo the length makes the model total on arbitrary
streams without changing it on in-contract ones. -/
def saltCharacter (n : Nat) : Char :=
  saltCharacters.toList.getD (n % saltCharacters.length) 'A'

/-- The 16-character salt drawn from the random source (variant 2,
lines 294-299).  The random source is the stream of successive
`rand.Intn` results. -/
def genSalt (rng : Nat → Nat) : String :=
  String.mk ((List.range saltLength).map fun i => saltCharacter (rng i))

/-- One hexadecimal digit, lower case, as produced by
`hex.EncodeToString`. -/
def hexDigit (n : Nat) : Char :=
  "0123456789abcdef".toList.getD (n % 16) '0'

/-- `hex.EncodeToString` over a byte list: two lowercase hex digits per
byte, high nibble first. -/
def hexEncode (bs : List Nat) : String :=
  String.mk (bs.flatMap fun b => [hexDigit (b / 16 % 16), hexDigit (b % 16)])

/-- `getHashedWpaKeyAndSalt` (variant 2, lines 289-305).  `store` models
`uciTree.GetLast("wireless", "@wifi-iface[i]", "key")` indexed by the
wifi-iface position `i`; `sha` is the SHA-256 digest over a string as a byte
list (an external library function, abstracted); `rng` is the stream of
`rand.Intn` draws.  Returns the (digest, salt) pair together with the
rest of the random stream. -/
def getHashedWpaKeyAndSalt (sha : String → List Nat) (store : Nat → Option String)
    (rng : Nat → Nat) (s : station) : (String × String) × (Nat → Nat) :=
  match store (s.idx + 1) with
  | none => (("", ""), rng)
  | some wpaKey =>
    let salt := genSalt rng
    ((hexEncode (sha (wpaKey ++ salt)), salt), fun k => rng (k + saltLength))

/-- The per-station update of variant 2's `updateStationStatuses`
(lines 249-256): nil entry for a `no-team-` SSID, otherwise a status with
the observed SSID and the hashed key and salt from
`getHashedWpaKeyAndSalt`; also returns the rest of the random stream. -/
def stationEntry2 (sha : String → List Nat) (store : Nat → Option String)
    (rng : Nat → Nat) (s : station) (ssid : String) :
    Option NetworkStatus × (Nat → Nat) :=
  if ssid.startsWith "no-team-" then (none, rng)
  else
    let hs := getHashedWpaKeyAndSalt sha store rng s
    (some { Ssid := ssid, HashedWpaKey := hs.1.1, WpaKeySalt := hs.1.2 }, hs.2)

/-- The drain loop at the top of variant 2's `handleConfigurationRequest`
(lines 150-154): receive `len(queue)` queued requests, keeping only the
last. -/
def drainLatest : ConfigurationRequest2 → List ConfigurationRequest2 → ConfigurationRequest2
  | r, [] => r
  | _, q :: qs => drainLatest q qs

/-- Spec-side definition: the most recently enqueued request of a burst —
the head request if nothing else is queued, otherwise the newest (last)
queued one. -/
def specLatestRequest (r : ConfigurationRequest2)
    (q : List ConfigurationRequest2) : ConfigurationRequest2 :=
  (r :: q).reverse.headD r

/-- The outcome of `handleConfigurationRequest` (variant 2, lines 149-166):
the requests passed to `configure`, the final `radio.Status`, the channel
contents left for the next loop iteration, and the returned error. -/
structure HandleResult where
  applied : List ConfigurationRequest2
  status : String
  remaining : List ConfigurationRequest2
  result : Except String Unit

/-- `handleConfigurationRequest` (variant 2, lines 149-166).  `queued` is
the burst already buffered behind `request` when handling starts;
`arrived` is what producers have enqueued by the time `configure` returns
(the `len(radio.ConfigurationRequestChannel) == 0` check on line 162 reads
the live channel).  The status is set to CONFIGURING before `configure`
runs, to ERROR on failure, and to ACTIVE on success only when the channel
is empty at that moment. -/
def handleConfigurationRequest2 (cfg : ConfigurationRequest2 → Except String Unit)
    (request : ConfigurationRequest2) (queued arrived : List ConfigurationRequest2) :
    HandleResult :=
  let final := drainLatest request queued
  match cfg final with
  | Except.error e =>
    { applied := [final], status := statusError, remaining := arrived,
      result := Except.error e }
  | Except.ok _ =>
    { applied := [final],
      status := if arrived.length = 0 then statusActive else statusConfiguring,
      remaining := arrived,
      result := Except.ok () }

/-!
## Claims
-/

/-- C1 (code evaluation at the failing input): variant 1's staging loop
stages nothing at all for a request naming no stations — in particular the
`no-team-1` placeholder SSID is never staged for the unnamed station red1 —
while variant 2's staging pass does stage that placeholder at the same
input.  Variant 1's own Linksys clear pass (`configureStations({})`) and its
nil-status convergence check rely on unnamed stations being reset, so
variant 1 contradicts its own stated intent here. -/
theorem c1_staging_eval :
    stagePass1 RadioType.typeLinksys "10_20_30" "40_50_60" [] = [] ∧
    Effect.set "wireless" "@wifi-iface[1]" "ssid" "no-team-1" ∉
      stagePass1 RadioType.typeLinksys "10_20_30" "40_50_60" [] ∧
    Effect.set "wireless" "@wifi-iface[1]" "ssid" "no-team-1" ∈
      attemptStage2 RadioType.typeLinksys [] := by
  refine ⟨rfl, by simp [stagePass1], by decide⟩

/-- The drain loop keeps exactly the most recently enqueued request of the
burst. -/
theorem drainLatest_eq (q : List ConfigurationRequest2) :
    ∀ r, drainLatest r q = specLatestRequest r q := by
  induction q with
  | nil => intro r; rfl
  | cons a qs ih =>
    intro r
    show drainLatest a qs = specLatestRequest r (a :: qs)
    rw [ih a]
    unfold specLatestRequest
    rcases h : (a :: qs).reverse with _ | ⟨c, t⟩
    · exact absurd h (by simp)
    · rw [List.reverse_cons, h]
      rfl

/-- C6: when a burst of requests is already queued, `handleConfigurationRequest`
passes exactly one request to `configure` — the most recently enqueued of
the burst — and the whole burst is drained away (only requests arriving
later remain buffered), so the older requests have no configuration
effect. -/
theorem c6_coalescing (cfg : ConfigurationRequest2 → Except String Unit)
    (r : ConfigurationRequest2) (q arrived : List ConfigurationRequest2) :
    (handleConfigurationRequest2 cfg r q arrived).applied = [specLatestRequest r q] ∧
    (handleConfigurationRequest2 cfg r q arrived).remaining = arrived := by
  unfold handleConfigurationRequest2
  rw [drainLatest_eq q r]
  cases h : cfg (specLatestRequest r q) <;> simp [h]

/-- C8 (amended): after `handleConfigurationRequest`, the status is ERROR
whenever `configure` failed; on success it is ACTIVE only when the request
queue is empty at that moment, and otherwise stays CONFIGURING; in both
cases the handler returns (the error is reported, not fatal), so the run
loop resumes. -/
theorem c8_amended (cfg : ConfigurationRequest2 → Except String Unit)
    (r : ConfigurationRequest2) (q arrived : List ConfigurationRequest2) :
    ((∃ e, cfg (drainLatest r q) = Except.error e) →
      (handleConfigurationRequest2 cfg r q arrived).status = statusError) ∧
    (cfg (drainLatest r q) = Except.ok () →
      (handleConfigurationRequest2 cfg r q arrived).status =
        (if arrived = [] then statusActive else statusConfiguring)) ∧
    (handleConfigurationRequest2 cfg r q arrived).result = cfg (drainLatest r q) := by
  unfold handleConfigurationRequest2
  cases h : cfg (drainLatest r q) with
  | error e => simp [h]
  | ok u => cases u; simp [h, List.length_eq_zero]

/-- A throwaway concrete request. -/
def req0 : ConfigurationRequest2 := { Channel := 0, StationConfigurations := [] }

/-- C8 (counterexample): with one request arriving while `configure` runs,
`configure` succeeds yet the status after `handleConfigurationRequest` is
not ACTIVE (it stays CONFIGURING), refuting the claim that success always
leaves RadioStatus equal to ACTIVE. -/
theorem c8_counterexample :
    (handleConfigurationRequest2 (fun _ => Except.ok ()) req0 [] [req0]).result =
      Except.ok () ∧
    (handleConfigurationRequest2 (fun _ => Except.ok ()) req0 [] [req0]).status ≠
      statusActive := by
  exact ⟨rfl, by decide⟩

/-- C8 (witness): at a concrete failing `configure`, the status is ERROR. -/
theorem c8_witness :
    (handleConfigurationRequest2 (fun _ => Except.error "boom") req0 [] []).status =
      statusError :=
  (c8_amended (fun _ => Except.error "boom") req0 [] []).1 ⟨"boom", rfl⟩

/-- C10: when the store has no WPA key at the station's wifi-iface index,
`getHashedWpaKeyAndSalt` returns the pair of empty strings with the random
stream untouched, and the station's refreshed status entry carries empty
`hashedWpaKey` and `wpaKeySalt` fields. -/
theorem c10_nokey (sha : String → List Nat) (store : Nat → Option String)
    (rng : Nat → Nat) (s : station) (ssid : String)
    (hk : store (s.idx + 1) = none) (hn : ssid.startsWith "no-team-" = false) :
    getHashedWpaKeyAndSalt sha store rng s = (("", ""), rng) ∧
    stationEntry2 sha store rng s ssid =
      (some { Ssid := ssid, HashedWpaKey := "", WpaKeySalt := "" }, rng) := by
  have h1 : getHashedWpaKeyAndSalt sha store rng s = (("", ""), rng) := by
    unfold getHashedWpaKeyAndSalt
    rw [hk]
  exact ⟨h1, by simp [stationEntry2, hn, h1]⟩

/-- C10 (witness): concrete no-key lookup. -/
theorem c10_witness :
    getHashedWpaKeyAndSalt (fun _ => []) (fun _ => none) (fun _ => 0) station.red1 =
      (("", ""), fun _ => 0) ∧
    stationEntry2 (fun _ => []) (fun _ => none) (fun _ => 0) station.red1 "1111" =
      (some { Ssid := "1111", HashedWpaKey := "", WpaKeySalt := "" }, fun _ => 0) :=
  c10_nokey (fun _ => []) (fun _ => none) (fun _ => 0) station.red1 "1111" rfl (by decide)

/-- Every character drawn for a salt comes from `saltCharacters` and is
alphanumeric. -/
theorem saltCharacter_isAlphanum (n : Nat) : (saltCharacter n).isAlphanum = true := by
  have hall : ∀ m, m < 62 → (saltCharacters.toList.getD m 'A').isAlphanum = true := by decide
  have hlen : saltCharacters.length = 62 := rfl
  have h : n % saltCharacters.length < 62 := by
    rw [hlen]
    exact Nat.mod_lt _ (by norm_num)
  exact hall _ h

/-- C9 (amended): when the store holds a key, each call draws a fresh
16-character alphanumeric salt as the next `saltLength` values of the random
stream — a function of the stream alone, never of the key or the store —
returns the hex-encoded digest of `key ++ salt` (deterministic in the
key+salt pair), and leaves exactly the stream shifted by `saltLength` for
the next caller.  The salts of two calls therefore coincide exactly when the
stream repeats itself, which is improbable but not impossible. -/
theorem c9_amended (sha : String → List Nat) (store : Nat → Option String)
    (rng : Nat → Nat) (s : station) (key : String)
    (hk : store (s.idx + 1) = some key) :
    (getHashedWpaKeyAndSalt sha store rng s).1.2 = genSalt rng ∧
    (genSalt rng).length = saltLength ∧
    (∀ c ∈ (genSalt rng).toList, c.isAlphanum = true) ∧
    (getHashedWpaKeyAndSalt sha store rng s).1.1 = hexEncode (sha (key ++ genSalt rng)) ∧
    (∀ k, (getHashedWpaKeyAndSalt sha store rng s).2 k = rng (k + saltLength)) ∧
    (∀ store2 s2 key2, store2 (station.idx s2 + 1) = some key2 →
      (getHashedWpaKeyAndSalt sha store2 rng s2).1.2 = genSalt rng) := by
  refine ⟨by simp [getHashedWpaKeyAndSalt, hk], ?_, ?_, by simp [getHashedWpaKeyAndSalt, hk],
    by simp [getHashedWpaKeyAndSalt, hk], ?_⟩
  · have h : (genSalt rng).length =
        ((List.range saltLength).map fun i => saltCharacter (rng i)).length := rfl
    rw [h]
    simp
  · intro c hc
    have h : (genSalt rng).toList =
        (List.range saltLength).map fun i => saltCharacter (rng i) := rfl
    rw [h] at hc
    simp only [List.mem_map] at hc
    obtain ⟨i, _, hi⟩ := hc
    rw [← hi]
    exact saltCharacter_isAlphanum _
  · intro store2 s2 key2 hk2
    simp [getHashedWpaKeyAndSalt, hk2]

/-- C9 (counterexample): on a random stream that repeats itself (all
zeros), two successive calls on the same key produce the same, non-empty
salt — refuting "never equal across two calls". -/
theorem c9_counterexample :
    (getHashedWpaKeyAndSalt (fun _ => []) (fun _ => some "key") (fun _ => 0)
        station.red1).1.2 =
      (getHashedWpaKeyAndSalt (fun _ => []) (fun _ => some "key")
        ((getHashedWpaKeyAndSalt (fun _ => []) (fun _ => some "key") (fun _ => 0)
          station.red1).2) station.red1).1.2 ∧
    (getHashedWpaKeyAndSalt (fun _ => []) (fun _ => some "key") (fun _ => 0)
        station.red1).1.2 ≠ "" := by
  exact ⟨rfl, by decide⟩

/-- C9 (witness): concrete instantiation of the amended salt/digest
characterization. -/
theorem c9_witness :
    (getHashedWpaKeyAndSalt (fun _ => [7]) (fun _ => some "pw") (fun _ => 3)
        station.red2).1.2 = genSalt (fun _ => 3) ∧
    (genSalt (fun _ => 3)).length = saltLength ∧
    (getHashedWpaKeyAndSalt (fun _ => [7]) (fun _ => some "pw") (fun _ => 3)
        station.red2).1.1 = hexEncode ((fun _ => [7]) ("pw" ++ genSalt (fun _ => 3))) := by
  have h := c9_amended (fun _ => [7]) (fun _ => some "pw") (fun _ => 3) station.red2 "pw" rfl
  exact ⟨h.1, h.2.1, h.2.2.2.1⟩

/-- Splitting lemma for the status-refresh loop: if every station before
`s` reads successfully and `s` fails, the loop stops at `s` with the error,
and the entries of `s` and of every station at or after it keep their
pre-call values (while the earlier ones have already been replaced). -/
theorem ussRun_split (getSsid : station → Except String String)
    (hash : station → String × String) (msg : String) :
    ∀ (done : List station) (s : station) (rest : List station)
      (m : station → Option NetworkStatus),
      (∀ t ∈ done, ∃ v, getSsid t = Except.ok v) → getSsid s = Except.error msg →
      (ussRun getSsid hash (done ++ s :: rest) m).2 = some msg ∧
      ∀ t, t ∉ done → (ussRun getSsid hash (done ++ s :: rest) m).1 t = m t := by
  intro done
  induction done with
  | nil =>
    intro s rest m _ hs
    constructor
    · simp [ussRun, hs]
    · intro t _
      simp [ussRun, hs]
  | cons a d ih =>
    intro s rest m hdone hs
    obtain ⟨v, hv⟩ := hdone a (by simp)
    have step : ussRun getSsid hash ((a :: d) ++ s :: rest) m =
        ussRun getSsid hash (d ++ s :: rest) (updateMap m a (newEntry hash a v)) := by
      simp [ussRun, hv]
    have ihh := ih s rest (updateMap m a (newEntry hash a v))
      (fun t ht => hdone t (by simp [ht])) hs
    rw [step]
    refine ⟨ihh.1, fun t ht => ?_⟩
    have hta : t ≠ a := fun hh => ht (by simp [hh])
    have htd : t ∉ d := fun hh => ht (by simp [hh])
    rw [ihh.2 t htd]
    simp [updateMap, hta]

/-- C3 (amended): a failed SSID read aborts `updateStationStatuses` with the
error, but the refresh is not rolled back: stations from the failing one
onward (in iteration order) keep their pre-call entries, while stations
already processed have had theirs replaced. -/
theorem c3_amended (getSsid : station → Except String String)
    (hash : station → String × String) (init : station → Option NetworkStatus)
    (done rest : List station) (s : station) (msg : String)
    (hsplit : allStations = done ++ s :: rest)
    (hdone : ∀ t ∈ done, ∃ v, getSsid t = Except.ok v)
    (hs : getSsid s = Except.error msg) :
    (updateStationStatuses1 getSsid hash init).2 = some msg ∧
    ∀ t, t ∉ done → (updateStationStatuses1 getSsid hash init).1 t = init t := by
  unfold updateStationStatuses1
  rw [hsplit]
  exact ussRun_split getSsid hash msg done s rest init hdone hs

/-- Concrete SSID oracle for C3: red1 reads a team SSID, every later
station's introspection command fails. -/
def ssidOracleEx : station → Except String String :=
  fun s =>
    match s with
    | station.red1 => Except.ok "1234"
    | _ => Except.error "boom"

/-- Concrete hashing oracle for C3. -/
def hashOracleEx : station → String × String := fun _ => ("hh", "ss")

/-- Concrete pre-call station map for C3: all entries nil. -/
def statusMapEx : station → Option NetworkStatus := fun _ => none

/-- C3 (counterexample): the SSID read succeeds for red1 and fails for
red2; `updateStationStatuses` returns the error, yet red1's entry has
already been replaced — the map is not left entirely unchanged, refuting
the atomicity claim. -/
theorem c3_counterexample :
    (updateStationStatuses1 ssidOracleEx hashOracleEx statusMapEx).2 = some "boom" ∧
    (updateStationStatuses1 ssidOracleEx hashOracleEx statusMapEx).1 station.red1 ≠
      statusMapEx station.red1 := by
  exact ⟨rfl, by decide⟩

/-- C3 (witness): concrete instantiation of the amended statement — the
error propagates and the stations at or after the failure keep their
pre-call entries. -/
theorem c3_witness :
    (updateStationStatuses1 ssidOracleEx hashOracleEx statusMapEx).2 = some "boom" ∧
    (updateStationStatuses1 ssidOracleEx hashOracleEx statusMapEx).1 station.blue3 =
      statusMapEx station.blue3 := by
  have h := c3_amended ssidOracleEx hashOracleEx statusMapEx
    [station.red1] [station.red3, station.blue1, station.blue2, station.blue3]
    station.red2 "boom" rfl
    (by
      intro t ht
      rw [List.mem_singleton] at ht
      subst ht
      exact ⟨"1234", rfl⟩)
    rfl
  exact ⟨h.1, h.2 station.blue3 (by decide)⟩

/-- C4 (amended): an unrecognized channel bandwidth makes `configure` return
the validation error with nothing committed to the store and with the
bandwidth, VLAN and syslog state untouched — but the channel number, when
positive in the request, has already been staged and the in-memory `Channel`
field already updated before the error returns. -/
theorem c4_amended (ty : RadioType) (st : RadioState1) (req : ConfigurationRequest1)
    (sysCommitOk logRestartOk : Bool)
    (stations : List (String × Option StationConfiguration) → Except String Unit)
    (h1 : req.ChannelBandwidth ≠ "") (h2 : req.ChannelBandwidth ≠ "20MHz")
    (h3 : req.ChannelBandwidth ≠ "40MHz") :
    (configure1 ty st req sysCommitOk logRestartOk stations).2.2 =
      Except.error ("invalid channel bandwidth: " ++ req.ChannelBandwidth) ∧
    Effect.commit ∉ (configure1 ty st req sysCommitOk logRestartOk stations).2.1 ∧
    (configure1 ty st req sysCommitOk logRestartOk stations).1.ChannelBandwidth =
      st.ChannelBandwidth ∧
    (configure1 ty st req sysCommitOk logRestartOk stations).1.RedVlans = st.RedVlans ∧
    (configure1 ty st req sysCommitOk logRestartOk stations).1.BlueVlans = st.BlueVlans ∧
    (configure1 ty st req sysCommitOk logRestartOk stations).1.SyslogIpAddress =
      st.SyslogIpAddress ∧
    (configure1 ty st req sysCommitOk logRestartOk stations).1.Channel =
      (if 0 < req.Channel then req.Channel else st.Channel) ∧
    (configure1 ty st req sysCommitOk logRestartOk stations).2.1 =
      (if 0 < req.Channel then
        [Effect.set "wireless" (device ty) "channel" (toString req.Channel)]
      else []) := by
  have hcond : req.ChannelBandwidth ≠ "" ∧ req.ChannelBandwidth ≠ "20MHz" ∧
      req.ChannelBandwidth ≠ "40MHz" := ⟨h1, h2, h3⟩
  unfold configure1
  rw [if_pos hcond]
  by_cases hch : 0 < req.Channel <;> simp [hch]

/-- Concrete request for C4: a positive channel together with a malformed
bandwidth. -/
def reqBad : ConfigurationRequest1 :=
  { Channel := 5, ChannelBandwidth := "30MHz", RedVlans := "", BlueVlans := "",
    SyslogIpAddress := "", StationConfigurations := [] }

/-- Concrete pre-call in-memory state for C4. -/
def radioStateEx : RadioState1 :=
  { Channel := 1, ChannelBandwidth := "20MHz", RedVlans := "10_20_30",
    BlueVlans := "40_50_60", SyslogIpAddress := "" }

/-- C4 (counterexample): a request with channel 5 and bandwidth "30MHz" is
rejected with the validation error, yet the in-memory channel has changed
from 1 to 5 and the channel write is staged — refuting "no value is staged
and no in-memory field is changed before the error". -/
theorem c4_counterexample :
    (configure1 RadioType.typeVividHosting radioStateEx reqBad true true
        (fun _ => Except.ok ())).2.2 =
      Except.error "invalid channel bandwidth: 30MHz" ∧
    (configure1 RadioType.typeVividHosting radioStateEx reqBad true true
        (fun _ => Except.ok ())).1.Channel = 5 ∧
    radioStateEx.Channel = 1 ∧
    Effect.set "wireless" "wifi1" "channel" "5" ∈
      (configure1 RadioType.typeVividHosting radioStateEx reqBad true true
        (fun _ => Except.ok ())).2.1 := by
  exact ⟨rfl, rfl, rfl, by decide⟩

/-- C4 (witness): concrete instantiation of the amended theorem. -/
theorem c4_witness :
    (configure1 RadioType.typeVividHosting radioStateEx reqBad true true
        (fun _ => Except.ok ())).2.2 =
      Except.error ("invalid channel bandwidth: " ++ reqBad.ChannelBandwidth) ∧
    (configure1 RadioType.typeVividHosting radioStateEx reqBad true true
        (fun _ => Except.ok ())).1.SyslogIpAddress = radioStateEx.SyslogIpAddress := by
  have h := c4_amended RadioType.typeVividHosting radioStateEx reqBad true true
    (fun _ => Except.ok ()) (by decide) (by decide) (by decide)
  exact ⟨h.1, h.2.2.2.2.2.1⟩

/-- Every effect staged by variant 1's per-station staging is a store
write, never a commit. -/
theorem stageStation1_no_commit (ty : RadioType) (redVlans blueVlans : String)
    (name : String) (cfg : Option StationConfiguration) :
    ∀ e ∈ stageStation1 ty redVlans blueVlans name cfg, e ≠ Effect.commit := by
  intro e he
  cases cfg with
  | none => simp [stageStation1] at he
  | some c =>
    by_cases hty : ty = RadioType.typeVividHosting <;>
      simp [stageStation1, hty] at he <;>
      rcases he with rfl | rfl | rfl | rfl <;> simp

/-- The staging pass of variant 1 contains no commit. -/
theorem commit_not_mem_stagePass1 (ty : RadioType) (redVlans blueVlans : String)
    (cfgs : List (String × Option StationConfiguration)) :
    Effect.commit ∉ stagePass1 ty redVlans blueVlans cfgs := by
  intro h
  rw [stagePass1, List.mem_flatMap] at h
  obtain ⟨p, _, hp⟩ := h
  exact stageStation1_no_commit ty redVlans blueVlans p.1 p.2 _ hp rfl

/-- One-step unfolding of the bounded retry loop. -/
theorem csRunV1_unfold (ty : RadioType) (cfgs : List (String × Option StationConfiguration))
    (env : Nat → AttemptEnv) (r fuel : Nat) :
    csRunV1 ty cfgs env r (fuel + 1) =
      match attemptOutcome ty cfgs (env r) with
      | some res => (res, r)
      | none =>
        if maxRetryCount ≤ r then
          (Except.error ("failed to configure stations after " ++ toString r ++ " attempts"), r)
        else csRunV1 ty cfgs env (r + 1) fuel := rfl

/-- C5 (amended): in variant 1, each reconciliation attempt stages all its
per-station writes first and then issues exactly one store commit (no commit
occurs inside the staging, none after it in the attempt), and a commit
failure aborts the call immediately on that attempt with the fatal error —
it is not retried. -/
theorem c5_amended (ty : RadioType) (redVlans blueVlans : String)
    (cfgs : List (String × Option StationConfiguration)) (env : Nat → AttemptEnv)
    (h : (env 1).commitOk = false) :
    (∃ rest, attemptTrace1 ty redVlans blueVlans cfgs =
        stagePass1 ty redVlans blueVlans cfgs ++ Effect.commit :: rest ∧
      Effect.commit ∉ stagePass1 ty redVlans blueVlans cfgs ∧
      Effect.commit ∉ rest) ∧
    configureStations1 ty cfgs env =
      (Except.error "failed to commit wireless configuration", 1) := by
  constructor
  · refine ⟨[Effect.run ["wifi", "reload", device ty], Effect.sleep], rfl,
      commit_not_mem_stagePass1 ty redVlans blueVlans cfgs, by simp⟩
  · show csRunV1 ty cfgs env 1 (2 + 1) = _
    rw [csRunV1_unfold]
    simp [attemptOutcome, h]

/-- Concrete attempt environment whose first commit fails. -/
def envCommitFail : Nat → AttemptEnv :=
  fun _ => { commitOk := false, reloadOk := true, observed := Except.ok fun _ => none }

/-- C5 (witness): a failing commit on the first attempt surfaces the fatal
error immediately. -/
theorem c5_witness :
    configureStations1 RadioType.typeLinksys [] envCommitFail =
      (Except.error "failed to commit wireless configuration", 1) :=
  (c5_amended RadioType.typeLinksys "10_20_30" "40_50_60" [] envCommitFail rfl).2

/-- C5 (counterexample): variant 2's staging pass issues six separate
commits (one per station, inside the loop), not one single commit after the
staging loop. -/
theorem c5_counterexample :
    (attemptStage2 RadioType.typeLinksys []).count Effect.commit = 6 ∧
    (attemptStage2 RadioType.typeLinksys []).count Effect.commit ≠ 1 := by
  exact ⟨by decide, by decide⟩

/-- C2 (amended): in variant 1, when the commits, reloads and status reads
of the attempts within the retry ceiling succeed (and the request carries no
nil unassign marker, which would dereference a nil pointer in the Go
convergence check), `configureStations` returns success on the first attempt
whose observed SSIDs match the request, and when no attempt within the
ceiling matches it returns the convergence-failure error after exactly
`maxRetryCount` attempts.  Variant 2 has no such ceiling (see the
counterexample). -/
theorem c2_amended (ty : RadioType) (cfgs : List (String × Option StationConfiguration))
    (env : Nat → AttemptEnv) (sts : Nat → station → Option NetworkStatus)
    (_hnil : ∀ p ∈ cfgs, p.2 ≠ none)
    (henv : ∀ n, 1 ≤ n → n ≤ maxRetryCount →
      (env n).commitOk = true ∧ (env n).reloadOk = true ∧
      (env n).observed = Except.ok (sts n)) :
    ((∀ n, 1 ≤ n → n ≤ maxRetryCount → stationSsidsAreCorrect cfgs (sts n) = false) →
      configureStations1 ty cfgs env =
        (Except.error ("failed to configure stations after " ++ toString maxRetryCount
          ++ " attempts"), maxRetryCount)) ∧
    (∀ n, 1 ≤ n → n ≤ maxRetryCount → stationSsidsAreCorrect cfgs (sts n) = true →
      (∀ m, 1 ≤ m → m < n → stationSsidsAreCorrect cfgs (sts m) = false) →
      configureStations1 ty cfgs env = (Except.ok (), n)) := by
  obtain ⟨hc1, hr1, ho1⟩ := henv 1 (by decide) (by decide)
  obtain ⟨hc2, hr2, ho2⟩ := henv 2 (by decide) (by decide)
  obtain ⟨hc3, hr3, ho3⟩ := henv 3 (by decide) (by decide)
  have o1 : attemptOutcome ty cfgs (env 1) =
      (if stationSsidsAreCorrect cfgs (sts 1) then some (Except.ok ()) else none) := by
    simp [attemptOutcome, hc1, hr1, ho1]
  have o2 : attemptOutcome ty cfgs (env 2) =
      (if stationSsidsAreCorrect cfgs (sts 2) then some (Except.ok ()) else none) := by
    simp [attemptOutcome, hc2, hr2, ho2]
  have o3 : attemptOutcome ty cfgs (env 3) =
      (if stationSsidsAreCorrect cfgs (sts 3) then some (Except.ok ()) else none) := by
    simp [attemptOutcome, hc3, hr3, ho3]
  constructor
  · intro hall
    have n1 : attemptOutcome ty cfgs (env 1) = none := by
      rw [o1, hall 1 (by decide) (by decide)]
      simp
    have n2 : attemptOutcome ty cfgs (env 2) = none := by
      rw [o2, hall 2 (by decide) (by decide)]
      simp
    have n3 : attemptOutcome ty cfgs (env 3) = none := by
      rw [o3, hall 3 (by decide) (by decide)]
      simp
    show csRunV1 ty cfgs env 1 (2 + 1) = _
    rw [csRunV1_unfold, n1]
    simp only [maxRetryCount]
    norm_num
    show csRunV1 ty cfgs env 2 (1 + 1) = _
    rw [csRunV1_unfold, n2]
    simp only [maxRetryCount]
    norm_num
    show csRunV1 ty cfgs env 3 (0 + 1) = _
    rw [csRunV1_unfold, n3]
    simp [maxRetryCount]
  · intro n h1 h3 hcorr hbefore
    have h3' : n ≤ 3 := h3
    interval_cases n
    · have a1 : attemptOutcome ty cfgs (env 1) = some (Except.ok ()) := by
        rw [o1, hcorr]
        simp
      show csRunV1 ty cfgs env 1 (2 + 1) = _
      rw [csRunV1_unfold, a1]
    · have n1 : attemptOutcome ty cfgs (env 1) = none := by
        rw [o1, hbefore 1 (by decide) (by decide)]
        simp
      have a2 : attemptOutcome ty cfgs (env 2) = some (Except.ok ()) := by
        rw [o2, hcorr]
        simp
      show csRunV1 ty cfgs env 1 (2 + 1) = _
      rw [csRunV1_unfold, n1]
      simp only [maxRetryCount]
      norm_num
      show csRunV1 ty cfgs env 2 (1 + 1) = _
      rw [csRunV1_unfold, a2]
    · have n1 : attemptOutcome ty cfgs (env 1) = none := by
        rw [o1, hbefore 1 (by decide) (by decide)]
        simp
      have n2 : attemptOutcome ty cfgs (env 2) = none := by
        rw [o2, hbefore 2 (by decide) (by decide)]
        simp
      have a3 : attemptOutcome ty cfgs (env 3) = some (Except.ok ()) := by
        rw [o3, hcorr]
        simp
      show csRunV1 ty cfgs env 1 (2 + 1) = _
      rw [csRunV1_unfold, n1]
      simp only [maxRetryCount]
      norm_num
      show csRunV1 ty cfgs env 2 (1 + 1) = _
      rw [csRunV1_unfold, n2]
      simp only [maxRetryCount]
      norm_num
      show csRunV1 ty cfgs env 3 (0 + 1) = _
      rw [csRunV1_unfold, a3]

/-- Concrete request for the C2 witness. -/
def cfgsW : List (String × Option StationConfiguration) :=
  [("red1", some { Ssid := "1111", WpaKey := "password" })]

/-- Concrete per-attempt observations for the C2 witness: the device
misreports on attempt 1 and reports the requested SSID from attempt 2 on. -/
def stsW : Nat → station → Option NetworkStatus :=
  fun n s =>
    if n = 2 ∧ s = station.red1 then
      some { Ssid := "1111", HashedWpaKey := "", WpaKeySalt := "" }
    else none

/-- Concrete attempt environment for the C2 witness. -/
def envW : Nat → AttemptEnv :=
  fun n => { commitOk := true, reloadOk := true, observed := Except.ok (stsW n) }

/-- C2 (witness): with a match on the second attempt, `configureStations`
returns success after exactly two attempts. -/
theorem c2_witness :
    configureStations1 RadioType.typeLinksys cfgsW envW = (Except.ok (), 2) := by
  have h := (c2_amended RadioType.typeLinksys cfgsW envW stsW
    (by decide)
    (by
      intro n h1 h3
      exact ⟨rfl, rfl, rfl⟩)).2
  exact h 2 (by decide) (by decide) (by decide)
    (by
      intro m hm1 hm2
      interval_cases m
      decide)

/-- C2 (counterexample): variant 2's retry loop has no ceiling — with a
device that never reports the requested SSID (and commits and reloads all
succeeding), the loop is still running after 10 attempts (one fuel unit per
attempt), so it neither stops at the retry ceiling of 3 attempts nor
returns a convergence-failure error. -/
theorem c2_counterexample :
    csRunV2 RadioType.typeLinksys [("red1", { Ssid := "9991", WpaKey := "password" })]
      (fun _ => { commitOk := true, reloadOk := true, observed := Except.ok fun _ => none })
      1 10 = none := by
  rfl
